import Mathlib

/-!
# Verification of the deepfake-detection core

Shallow embedding of the repository's core algorithms:

* frame sampling strategies — `src/video_processor.py` (`_uniform_sampling`),
  `plugins/emotion_sampler.py` (`EmotionBasedSampler.sample_frames`),
  `plugins/scene_sampler.py` (`SceneBasedSampler.sample_frames`);
* the local reasoning agent — `src/local_agent.py`
  (`_detect_visual_artifacts`, `analyze_temporal_sequence`,
  `synthesize_verdict`, `_get_default_rules`).

Conventions of the embedding:

* Python floats are modelled as exact rationals (`ℚ`); decimal literals in
  the source (`0.6`, `0.75`, ...) become the corresponding exact rationals.
* Python `int(x)` (truncation toward zero) is `pyInt`.
* A Python function that can raise (`ZeroDivisionError`, `IndexError`)
  returns an `Option`, with `none` standing for the raised exception.
* Image-processing primitives from OpenCV/NumPy (`cv2.Laplacian` variance,
  Sobel-gradient standard deviation, Canny edge density, and the mean
  absolute frame difference) are external library calls; they enter the
  embedding as explicit numeric inputs / an abstract `motion` function,
  while every branch and formula computed from them is embedded faithfully.
-/

namespace Deepfake

/-- Python `int(q)` on a rational: truncation toward zero
(`Int.tdiv` of the reduced numerator by the denominator). -/
def pyInt (q : ℚ) : ℤ := Int.tdiv q.num q.den

/-- On nonnegative rationals Python `int()` agrees with the floor. -/
theorem pyInt_eq_floor {q : ℚ} (h : 0 ≤ q) : pyInt q = ⌊q⌋ := by
  rw [Rat.floor_def, pyInt, Int.tdiv_eq_ediv (Rat.num_nonneg.mpr h) (by positivity)]

/-- `VideoProcessor._uniform_sampling` (src/video_processor.py, lines 165-183).
`num_frames` is the processor's configured sample count, `total_frames` the
video length.  If `total_frames <= num_frames` all frames are returned;
otherwise `int(i * step)` with `step = total_frames / num_frames`, i.e.
`⌊i * total_frames / num_frames⌋`, for `i < num_frames`. -/
def uniformSampling (numFrames totalFrames : ℕ) : List ℕ :=
  if totalFrames ≤ numFrames then
    List.range totalFrames
  else
    (List.range numFrames).map (fun i => i * totalFrames / numFrames)

/-- Ordered insertion that skips an element already present: building block
for `sorted(list(set(xs)))`. -/
def insertSortedDedup (x : ℕ) : List ℕ → List ℕ
  | [] => [x]
  | y :: ys =>
    if x < y then x :: y :: ys
    else if x = y then y :: ys
    else y :: insertSortedDedup x ys

/-- Python `sorted(list(set(xs)))`: the strictly sorted list of the distinct
elements of `xs`. -/
def sortDedup (l : List ℕ) : List ℕ := l.foldr insertSortedDedup []

/-- Ordered insertion keeping duplicates: building block for `sorted(xs)`. -/
def insertSorted (x : ℕ) : List ℕ → List ℕ
  | [] => [x]
  | y :: ys => if x ≤ y then x :: y :: ys else y :: insertSorted x ys

/-- Python `sorted(xs)` (duplicates kept). -/
def sortLe (l : List ℕ) : List ℕ := l.foldr insertSorted []

theorem mem_insertSortedDedup {x b : ℕ} {l : List ℕ} :
    b ∈ insertSortedDedup x l ↔ b = x ∨ b ∈ l := by
  induction l with
  | nil => simp [insertSortedDedup]
  | cons y ys ih =>
    by_cases h1 : x < y
    · simp [insertSortedDedup, h1]
    · by_cases h2 : x = y
      · subst h2
        simp only [insertSortedDedup, h1, if_false, if_true, List.mem_cons]
        tauto
      · simp only [insertSortedDedup, h1, h2, if_false, List.mem_cons, ih]
        tauto

theorem insertSortedDedup_sorted {l : List ℕ} (h : l.Sorted (· < ·)) (x : ℕ) :
    (insertSortedDedup x l).Sorted (· < ·) := by
  induction l with
  | nil => simp [insertSortedDedup, List.Sorted]
  | cons y ys ih =>
    rw [List.sorted_cons] at h
    obtain ⟨hy, hys⟩ := h
    by_cases h1 : x < y
    · simp only [insertSortedDedup, h1, if_true]
      rw [List.sorted_cons]
      refine ⟨?_, ?_⟩
      · intro b hb
        rcases List.mem_cons.mp hb with rfl | hb
        · exact h1
        · exact lt_trans h1 (hy b hb)
      · rw [List.sorted_cons]; exact ⟨hy, hys⟩
    · by_cases h2 : x = y
      · subst h2
        simp only [insertSortedDedup, lt_irrefl, if_false, if_true]
        rw [List.sorted_cons]; exact ⟨hy, hys⟩
      · have hyx : y < x := by omega
        simp only [insertSortedDedup, h1, h2, if_false]
        rw [List.sorted_cons]
        refine ⟨?_, ih hys⟩
        intro b hb
        rcases mem_insertSortedDedup.mp hb with rfl | hb'
        · exact hyx
        · exact hy b hb'

theorem sortDedup_sorted (l : List ℕ) : (sortDedup l).Sorted (· < ·) := by
  induction l with
  | nil => simp [sortDedup, List.Sorted]
  | cons x xs ih => exact insertSortedDedup_sorted ih x

theorem mem_sortDedup {b : ℕ} {l : List ℕ} : b ∈ sortDedup l ↔ b ∈ l := by
  induction l with
  | nil => simp [sortDedup]
  | cons x xs ih =>
    simp only [sortDedup, List.foldr_cons] at *
    rw [mem_insertSortedDedup, ih, List.mem_cons]

/-- The seven relative transition positions of the emotion sampler,
as percentages (`transition_points = [0.05, 0.15, 0.35, 0.50, 0.65, 0.85,
0.95]`, plugins/emotion_sampler.py lines 53-61). -/
def transitionPercents : List ℕ := [5, 15, 35, 50, 65, 85, 95]

/-- Python `max(gaps)` over `gaps = [(l[i+1]-l[i], i) for i in range(len(l)-1)]`
(emotion_sampler.py lines 101-103): the lexicographically largest
`(gap, position)` pair, so the largest gap, ties resolved toward the larger
position; `none` when there are no gaps. -/
def bestGap (l : List ℕ) : Option (ℤ × ℕ) :=
  (List.range (l.length - 1)).foldl (fun acc i =>
    let g : ℤ := (l.getD (i + 1) 0 : ℤ) - (l.getD i 0 : ℤ)
    match acc with
    | none => some (g, i)
    | some (bg, bi) =>
      if bg < g ∨ (bg = g ∧ bi < i) then some (g, i) else some (bg, bi)) none

/-- The `while len(indices) < num_frames` gap-filling loop of
`EmotionBasedSampler.sample_frames` (lines 99-107), written with explicit
fuel; each iteration inserts the midpoint of the largest gap, so `numFrames`
fuel is enough for the loop to reach its exit condition. -/
def fillGaps (numFrames : ℕ) : ℕ → List ℕ → List ℕ
  | 0, l => l
  | fuel + 1, l =>
    if l.length < numFrames then
      match bestGap l with
      | none => l
      | some (_, gi) =>
        let newFrame := (l.getD gi 0 + l.getD (gi + 1) 0) / 2
        fillGaps numFrames fuel (l.insertIdx (gi + 1) newFrame)
    else l

/-- `EmotionBasedSampler.sample_frames` (plugins/emotion_sampler.py, lines
28-109).  Frames are allocated around the seven transition points (base +
remainder), spread around each point with offsets truncated toward zero and
clamped into `[0, total_frames - 1]`; the result is deduplicated and sorted,
trimmed by an even stride if too long, gap-filled if too short, and finally
truncated to `num_frames` and sorted. -/
def emotionSampleFrames (totalFrames numFrames : ℕ) : List ℕ :=
  if totalFrames ≤ numFrames then
    List.range totalFrames
  else
    let base := numFrames / 7
    let rem := numFrames % 7
    let raw := transitionPercents.enum.flatMap (fun pair =>
      let i := pair.1
      let p := pair.2
      let centerFrame := totalFrames * p / 100
      let framesAtPoint := base + (if i < rem then 1 else 0)
      if framesAtPoint = 1 then [centerFrame]
      else
        let spread := min (totalFrames / 20) 10
        (List.range framesAtPoint).map (fun j =>
          let offset := Int.tdiv ((2 * (j : ℤ) - (framesAtPoint : ℤ)) * (spread : ℤ)) 2
          (max 0 (min ((totalFrames : ℤ) - 1) ((centerFrame : ℤ) + offset))).toNat))
    let s := sortDedup raw
    let trimmed :=
      if numFrames < s.length then
        (List.range numFrames).map (fun i => s.getD (i * s.length / numFrames) 0)
      else s
    let filled := fillGaps numFrames numFrames trimmed
    sortLe (filled.take numFrames)

/-- The optional metadata dictionary consumed by the scene sampler: the
`fps` and `duration` entries may each be absent. -/
structure SceneMetadata where
  fps : Option ℚ
  duration : Option ℚ

/-- `SceneBasedSampler.sample_frames` (plugins/scene_sampler.py, lines
28-115).  `none` models a raised `ZeroDivisionError`: either from
`total_frames / fps`, the default argument of the
`metadata.get('duration', total_frames / fps)` lookup at line 51 — which
Python evaluates eagerly, so `fps = 0` raises here even when a duration
entry is present — or from `scene_length = total_frames / scene_count`
with `scene_count = 0` (which happens whenever `num_frames = 1`, since
`max_scenes = num_frames // 2 = 0`). -/
def sceneSampleFrames (totalFrames numFrames : ℕ)
    (metadata : Option SceneMetadata) : Option (List ℕ) :=
  if totalFrames ≤ numFrames then
    some (List.range totalFrames)
  else
    let fps : ℚ := match metadata with
      | none => 30
      | some m => m.fps.getD 30
    let durationOpt : Option ℚ :=
      if fps = 0 then none
      else
        some (match metadata with
          | some m => m.duration.getD ((totalFrames : ℚ) / fps)
          | none => (totalFrames : ℚ) / fps)
    match durationOpt with
    | none => none
    | some duration =>
      let estimatedSceneCount : ℕ := (max 2 (pyInt (duration / 3))).toNat
      let maxScenes := numFrames / 2
      let sceneCount := min estimatedSceneCount maxScenes
      if sceneCount = 0 then none
      else
        let boundaryIndices := (List.range sceneCount).foldl (fun acc idx =>
          let sceneStart := idx * totalFrames / sceneCount
          let sceneEnd : ℤ := ((idx + 1) * totalFrames / sceneCount : ℕ) - 1
          let startOffset := min 5 (totalFrames * 5 / (sceneCount * 100))
          let acc1 := acc ++ [min (sceneStart + startOffset) (totalFrames - 1)]
          if acc1.length < numFrames then
            let endOffset : ℤ := min 5 (totalFrames * 5 / (sceneCount * 100))
            acc1 ++ [(max 0 (min (sceneEnd - endOffset) ((totalFrames : ℤ) - 1))).toNat]
          else acc1) []
        let withMiddles :=
          if boundaryIndices.length < numFrames then
            (List.range sceneCount).foldl (fun acc idx =>
              if numFrames ≤ acc.length then acc
              else
                let sceneStart := idx * totalFrames / sceneCount
                let sceneEnd := (idx + 1) * totalFrames / sceneCount
                let sceneMiddle := (sceneStart + sceneEnd) / 2
                if sceneMiddle ∈ acc then acc else acc ++ [sceneMiddle]) boundaryIndices
          else boundaryIndices
        let withUniform :=
          if withMiddles.length < numFrames then
            let uniformIndices := ((List.range numFrames).map
                (fun i => i * totalFrames / numFrames)).filter
              (fun fi => fi ∉ withMiddles)
            withMiddles ++ uniformIndices.take (numFrames - withMiddles.length)
          else withMiddles
        let s := sortDedup withUniform
        let trimmed :=
          if numFrames < s.length then
            (List.range numFrames).map (fun i => s.getD (i * s.length / numFrames) 0)
          else s
        some (sortLe (trimmed.take numFrames))

example : uniformSampling 5 100 = [0, 20, 40, 60, 80] := by decide
example : emotionSampleFrames 3 2 = [0] := by decide
example : sceneSampleFrames 2 1 none = none := by norm_num [sceneSampleFrames]
example : sceneSampleFrames 10 4 (some ⟨some 0, some 5⟩) = none := by
  norm_num [sceneSampleFrames]


/-- The visual rule weights of the default rule configuration
(`LocalAgentRunner._get_default_rules`, src/local_agent.py lines 74-91,
`visual_rules` table; also the fallback values used by the
`weights.get(..., {}).get('weight', ...)` lookups at lines 200-205). -/
structure VisualWeights where
  facialSmoothing : ℚ
  lightingInconsistency : ℚ
  boundaryArtifacts : ℚ

/-- `facial_smoothing 0.25, lighting_inconsistency 0.20,
boundary_artifacts 0.20`. -/
def defaultVisualWeights : VisualWeights :=
  { facialSmoothing := 0.25, lightingInconsistency := 0.20, boundaryArtifacts := 0.20 }

/-- The `confidence_calculation` thresholds of the default rule
configuration (`_get_default_rules`, lines 86-90; also the fallback values
of the `thresholds.get(...)` lookups at lines 309-312). -/
structure ConfidenceThresholds where
  highConfidenceThreshold : ℚ
  moderateConfidenceThreshold : ℚ
  uncertainThreshold : ℚ

/-- `high 0.75, moderate 0.55, uncertain 0.45`. -/
def defaultConfidenceThresholds : ConfidenceThresholds :=
  { highConfidenceThreshold := 0.75
    moderateConfidenceThreshold := 0.55
    uncertainThreshold := 0.45 }

/-- The artifact dictionary built by `_detect_visual_artifacts`
(src/local_agent.py lines 158-207). -/
structure ArtifactReport where
  facialSmoothing : ℚ
  lightingInconsistency : ℚ
  boundaryArtifacts : ℚ
  resolutionMismatch : ℚ
  findings : List String
  totalScore : ℚ

/-- Facial-smoothing score from the Laplacian texture variance
(lines 166-176). -/
def smoothingScore (laplacianVar : ℚ) : ℚ :=
  if laplacianVar < 100 then 0.7 else if laplacianVar < 200 then 0.4 else 0

/-- Findings attached by the facial-smoothing rule. -/
def smoothingFindings (laplacianVar : ℚ) : List String :=
  if laplacianVar < 100 then ["Low texture variance detected (potential smoothing)"]
  else if laplacianVar < 200 then ["Moderate texture variance (some smoothing possible)"]
  else []

/-- Lighting-inconsistency score from the Sobel gradient-magnitude standard
deviation (lines 178-186). -/
def lightingScore (gradStd : ℚ) : ℚ := if gradStd < 20 then 0.6 else 0

/-- Findings attached by the lighting rule. -/
def lightingFindings (gradStd : ℚ) : List String :=
  if gradStd < 20 then ["Uniform lighting detected (potentially artificial)"] else []

/-- Boundary-artifact score from the Canny edge density (lines 188-197). -/
def boundaryScore (edgeDensity : ℚ) : ℚ :=
  if edgeDensity < 0.05 then 0.5 else if 0.20 < edgeDensity then 0.4 else 0

/-- Findings attached by the boundary rule. -/
def boundaryFindings (edgeDensity : ℚ) : List String :=
  if edgeDensity < 0.05 then ["Low edge density (possible boundary blending)"]
  else if 0.20 < edgeDensity then ["High edge density (possible artifacts)"]
  else []

/-- `LocalAgentRunner._detect_visual_artifacts` (src/local_agent.py lines
142-209).  The three OpenCV image statistics — Laplacian variance, gradient
std, edge density — are the function's only use of the pixel data and enter
as explicit inputs; branch structure, scores, findings and the weighted
`total_score` (lines 199-207) are embedded as written. -/
def detectVisualArtifacts (w : VisualWeights)
    (laplacianVar gradStd edgeDensity : ℚ) : ArtifactReport :=
  { facialSmoothing := smoothingScore laplacianVar
    lightingInconsistency := lightingScore gradStd
    boundaryArtifacts := boundaryScore edgeDensity
    resolutionMismatch := 0
    findings := smoothingFindings laplacianVar ++ lightingFindings gradStd ++
      boundaryFindings edgeDensity
    totalScore := smoothingScore laplacianVar * w.facialSmoothing +
      lightingScore gradStd * w.lightingInconsistency +
      boundaryScore edgeDensity * w.boundaryArtifacts }

/-- The dictionary returned by `analyze_temporal_sequence`
(src/local_agent.py lines 272-277). -/
structure TemporalReport where
  numFrames : ℕ
  temporalFindings : List String
  analysis : String
  temporalScore : ℚ

/-- Finding text for `motion_score > 50` (line 256-258). -/
def largeMotionMsg (a b : ℕ) : String :=
  "Large motion discontinuity between frames " ++ toString a ++ " and " ++ toString b

/-- Finding text for `motion_score < 5` (lines 259-262). -/
def lowMotionMsg (a b : ℕ) : String :=
  "Very low motion between frames " ++ toString a ++ " and " ++ toString b ++
    " (potentially static/frozen)"

/-- One iteration of the pair loop of `analyze_temporal_sequence` (lines
247-262): the findings contributed by consecutive pair `i`, or `none` for
the `IndexError` raised when a triggered finding reads `frame_indices[i]`
or `frame_indices[i+1]` out of range. -/
def pairFinding (frameIndices : List ℕ) (i : ℕ) (motionScore : ℚ) :
    Option (List String) :=
  if 50 < motionScore then
    match frameIndices[i]?, frameIndices[i + 1]? with
    | some a, some b => some [largeMotionMsg a b]
    | _, _ => none
  else if motionScore < 5 then
    match frameIndices[i]?, frameIndices[i + 1]? with
    | some a, some b => some [lowMotionMsg a b]
    | _, _ => none
  else some []

/-- The `for i in range(len(frames) - 1)` loop of
`analyze_temporal_sequence`, accumulating findings in order over the
consecutive frame pairs (first component of each pair is `frames[i]`,
second is `frames[i+1]`). -/
def tempLoop {F : Type} (motion : F → F → ℚ) (frameIndices : List ℕ) :
    ℕ → List (F × F) → Option (List String)
  | _, [] => some []
  | i, p :: rest =>
    match pairFinding frameIndices i (motion p.1 p.2) with
    | none => none
    | some here =>
      match tempLoop motion frameIndices (i + 1) rest with
      | none => none
      | some tail => some (here ++ tail)

/-- The consecutive pairs `(frames[i], frames[i+1])`. -/
def consecutivePairs {F : Type} (l : List F) : List (F × F) := l.zip l.tail

/-- The `analysis` narrative of the temporal report (lines 264-270). -/
def temporalAnalysisText (n : ℕ) (findings : List String) : String :=
  if findings = [] then
    "Temporal analysis across " ++ toString n ++
      " frames: Motion appears continuous and natural."
  else
    "Temporal analysis across " ++ toString n ++ " frames:\n" ++
      String.join (findings.map (fun f => "  - " ++ f ++ "\n"))

/-- `LocalAgentRunner.analyze_temporal_sequence` (src/local_agent.py lines
233-277).  `motion f1 f2` stands for the OpenCV statistic
`np.mean(cv2.absdiff(gray(f1), gray(f2)))` computed on the pixel data; the
loop, finding texts and `temporal_score = len(findings) / max(len(frames)
- 1, 1)` are embedded as written.  `none` models the `IndexError` raised
when a finding reads past the end of `frame_indices`; no other validation
of the two list arguments exists in the source. -/
def analyzeTemporalSequence {F : Type} (motion : F → F → ℚ)
    (frames : List F) (frameIndices : List ℕ) : Option TemporalReport :=
  (tempLoop motion frameIndices 0 (consecutivePairs frames)).map (fun findings =>
    { numFrames := frames.length
      temporalFindings := findings
      analysis := temporalAnalysisText frames.length findings
      temporalScore := (findings.length : ℚ) / (max (frames.length - 1) 1 : ℕ) })

/-- The parts of a frame-analysis dictionary that `synthesize_verdict`
reads: `fa['frame_index']` (via `_compile_frame_evidence`),
`fa['artifacts_detected']['findings']` and `fa['artifact_score']`
(`analyze_frame` stores `artifacts['total_score']` there, line 139). -/
structure FrameAnalysis where
  frameIndex : ℕ
  findings : List String
  artifactScore : ℚ

/-- `np.mean(scores) if scores else 0.0` (line 298). -/
def npMean : List ℚ → ℚ
  | [] => 0
  | l => l.sum / l.length

/-- `np.max(scores) if scores else 0.0` (line 299). -/
def npMax : List ℚ → ℚ
  | [] => 0
  | x :: xs => xs.foldl max x

/-- The `all_findings` aggregation of `synthesize_verdict` (lines 330-337):
every frame's findings concatenated in order, followed by the temporal
findings.  No deduplication happens here. -/
def allFindings (frameAnalyses : List FrameAnalysis)
    (temporalAnalysis : TemporalReport) : List String :=
  frameAnalyses.flatMap (fun fa => fa.findings) ++ temporalAnalysis.temporalFindings

/-- The `KEY EVIDENCE` selection of `_generate_reasoning` (line 424):
`list(set(all_findings))[:5]`.  Python's set-iteration order is
unspecified; the embedding fixes an occurrence order, which no theorem
below depends on. -/
def keyEvidence (findings : List String) : List String := findings.dedup.take 5

/-- `LocalAgentRunner._compile_frame_evidence` (lines 366-383). -/
def compileFrameEvidence (frameAnalyses : List FrameAnalysis) : String :=
  let evidenceParts := frameAnalyses.flatMap (fun fa =>
    if fa.findings = [] then []
    else ("Frame " ++ toString fa.frameIndex ++ ":") ::
      fa.findings.map (fun f => "  - " ++ f))
  if evidenceParts = [] then
    "No significant visual artifacts detected across analyzed frames."
  else
    String.intercalate "\n" evidenceParts

/-- The dictionary returned by `synthesize_verdict` (lines 350-364):
classification, confidence, the `evidence` entry (compiled frame
observations and the temporal analysis text) and the `scores` entry.  The
free-text `reasoning` narrative is reflected through `keyEvidence`, its
only evidence-selection step. -/
structure Verdict where
  classification : String
  confidence : ℤ
  frameObservations : String
  temporalObservations : String
  combined : ℚ
  visualAvg : ℚ
  visualMax : ℚ
  temporal : ℚ

/-- The classification/confidence ladder of `synthesize_verdict` (lines
314-328), from the combined suspicion score: Python `int()` is `pyInt` and
only the outer FAKE/REAL branches carry the `min(95, ...)` cap. -/
def classifyConfidence (th : ConfidenceThresholds) (combined : ℚ) :
    String × ℤ :=
  if th.highConfidenceThreshold ≤ combined then
    ("FAKE", min 95 (pyInt (70 + (combined - th.highConfidenceThreshold) * 100)))
  else if th.moderateConfidenceThreshold ≤ combined then
    ("LIKELY FAKE", pyInt (55 + (combined - th.moderateConfidenceThreshold) * 75))
  else if th.uncertainThreshold ≤ combined then
    ("UNCERTAIN", (50 : ℤ))
  else if (0.25 : ℚ) ≤ combined then
    ("LIKELY REAL", pyInt (55 + (th.uncertainThreshold - combined) * 75))
  else
    ("REAL", min 95 (pyInt (70 + (th.uncertainThreshold - combined) * 100)))

/-- `LocalAgentRunner.synthesize_verdict` (src/local_agent.py lines
279-364): score aggregation (lines 296-306), threshold classification and
confidence (lines 308-328 via `classifyConfidence`), and the returned
evidence and scores (lines 350-364). -/
def synthesizeVerdict (th : ConfidenceThresholds)
    (frameAnalyses : List FrameAnalysis) (temporalAnalysis : TemporalReport) :
    Verdict :=
  let artifactScores := frameAnalyses.map (fun fa => fa.artifactScore)
  let avgArtifactScore := npMean artifactScores
  let maxArtifactScore := npMax artifactScores
  let temporalScore := temporalAnalysis.temporalScore
  let combined := avgArtifactScore * 0.6 + temporalScore * 0.4
  let cls := classifyConfidence th combined
  { classification := cls.1
    confidence := cls.2
    frameObservations := compileFrameEvidence frameAnalyses
    temporalObservations := temporalAnalysis.analysis
    combined := combined
    visualAvg := avgArtifactScore
    visualMax := maxArtifactScore
    temporal := temporalScore }


/-! ## Helper lemmas -/

theorem nat_div_add_div_le (a b n : ℕ) (hn : 0 < n) : a / n + b / n ≤ (a + b) / n := by
  rw [Nat.le_div_iff_mul_le hn, Nat.add_mul]
  exact Nat.add_le_add (Nat.div_mul_le_self a n) (Nat.div_mul_le_self b n)

theorem uniform_strict_mono {totalFrames numFrames : ℕ}
    (h : numFrames < totalFrames) (hn : 0 < numFrames) {i j : ℕ} (hij : i < j) :
    i * totalFrames / numFrames < j * totalFrames / numFrames := by
  have step : i * totalFrames / numFrames + 1 ≤ (i + 1) * totalFrames / numFrames := by
    have h1 : 1 ≤ totalFrames / numFrames :=
      (Nat.one_le_div_iff hn).mpr (le_of_lt h)
    calc i * totalFrames / numFrames + 1
        ≤ i * totalFrames / numFrames + totalFrames / numFrames := by omega
      _ ≤ (i * totalFrames + totalFrames) / numFrames :=
          nat_div_add_div_le _ _ _ hn
      _ = (i + 1) * totalFrames / numFrames := by ring_nf
  calc i * totalFrames / numFrames + 1
      ≤ (i + 1) * totalFrames / numFrames := step
    _ ≤ j * totalFrames / numFrames :=
        Nat.div_le_div_right (Nat.mul_le_mul_right _ hij)

theorem uniformSampling_sorted (numFrames totalFrames : ℕ) (hn : 0 < numFrames) :
    (uniformSampling numFrames totalFrames).Sorted (· < ·) := by
  unfold uniformSampling
  split
  · exact List.pairwise_lt_range _
  · rename_i h
    push_neg at h
    refine List.pairwise_map.mpr ?_
    exact (List.pairwise_lt_range _).imp
      (fun hij => uniform_strict_mono h hn hij)

theorem uniformSampling_length (numFrames totalFrames : ℕ) :
    (uniformSampling numFrames totalFrames).length = min numFrames totalFrames := by
  unfold uniformSampling
  split
  · rename_i h
    simp [Nat.min_eq_right h]
  · rename_i h
    push_neg at h
    simp [Nat.min_eq_left (le_of_lt h)]

theorem uniformSampling_mem_lt (numFrames totalFrames : ℕ) (hn : 0 < numFrames)
    {x : ℕ} (hx : x ∈ uniformSampling numFrames totalFrames) : x < totalFrames := by
  unfold uniformSampling at hx
  split at hx
  · exact List.mem_range.mp hx
  · rename_i h
    push_neg at h
    obtain ⟨i, hi, rfl⟩ := List.mem_map.mp hx
    have hi' : i < numFrames := List.mem_range.mp hi
    have htot : 0 < totalFrames := lt_of_le_of_lt (Nat.zero_le _) h
    rw [Nat.div_lt_iff_lt_mul hn]
    calc i * totalFrames < numFrames * totalFrames :=
          (Nat.mul_lt_mul_right htot).mpr hi'
      _ = totalFrames * numFrames := Nat.mul_comm _ _


/-! ## Claim C1 -/

/-- C1, counterexample.  The claim — every strategy returns a sorted,
duplicate-free sequence of length `min(num_frames, total_frames)` for all
`total_frames ≥ 0 < num_frames` — fails on the code: the emotion sampler at
`total_frames = 3, num_frames = 2` returns `[0]` (all transition points
collapse onto frame 0, and the gap-filling loop cannot grow a 1-element
list), of length `1 ≠ min 2 3`; and the scene sampler at `total_frames = 2,
num_frames = 1` raises `ZeroDivisionError` (`scene_count = min(2, 1//2) =
0`) instead of returning anything. -/
theorem claim_C1_counterexample :
    emotionSampleFrames 3 2 = [0] ∧
    (emotionSampleFrames 3 2).length ≠ min 2 3 ∧
    sceneSampleFrames 2 1 none = none := by
  refine ⟨by decide, by decide, ?_⟩
  norm_num [sceneSampleFrames]

/-- C1, amended: the uniform strategy returns a sorted, duplicate-free
sequence of length `min(num_frames, total_frames)` with all values in
`[0, total_frames)`, for every `total_frames ≥ 0` and `num_frames > 0`;
the emotion- and scene-weighted strategies do so whenever
`total_frames ≤ num_frames` (where they return `range(total_frames)`
verbatim), but not in general. -/
theorem claim_C1_sampler_bounds (totalFrames numFrames : ℕ)
    (md : Option SceneMetadata) (hn : 0 < numFrames) :
    ((uniformSampling numFrames totalFrames).Sorted (· < ·) ∧
      (uniformSampling numFrames totalFrames).Nodup ∧
      (uniformSampling numFrames totalFrames).length = min numFrames totalFrames ∧
      ∀ x ∈ uniformSampling numFrames totalFrames, x < totalFrames) ∧
    (totalFrames ≤ numFrames →
      emotionSampleFrames totalFrames numFrames = List.range totalFrames ∧
      sceneSampleFrames totalFrames numFrames md = some (List.range totalFrames) ∧
      (List.range totalFrames).Sorted (· < ·) ∧
      (List.range totalFrames).Nodup ∧
      (List.range totalFrames).length = min numFrames totalFrames ∧
      ∀ x ∈ List.range totalFrames, x < totalFrames) := by
  constructor
  · exact ⟨uniformSampling_sorted _ _ hn,
      (uniformSampling_sorted _ _ hn).nodup,
      uniformSampling_length _ _,
      fun _ hx => uniformSampling_mem_lt _ _ hn hx⟩
  · intro hle
    refine ⟨by simp [emotionSampleFrames, hle], by simp [sceneSampleFrames, hle],
      List.pairwise_lt_range _, List.nodup_range _, ?_, fun x hx => List.mem_range.mp hx⟩
    simp [Nat.min_eq_right hle]

/-- Witness for `claim_C1_sampler_bounds` at concrete inputs. -/
theorem claim_C1_sampler_bounds_witness :
    (uniformSampling 3 10).Sorted (· < ·) ∧
    emotionSampleFrames 2 3 = List.range 2 ∧
    sceneSampleFrames 2 3 none = some (List.range 2) :=
  ⟨(claim_C1_sampler_bounds 10 3 none (by decide)).1.1,
   ((claim_C1_sampler_bounds 2 3 none (by decide)).2 (by decide)).1,
   ((claim_C1_sampler_bounds 2 3 none (by decide)).2 (by decide)).2.1⟩


/-! ## Arithmetic helpers for the synthesizer -/

theorem npMean_cons (x : ℚ) (xs : List ℚ) :
    npMean (x :: xs) = (x :: xs).sum / ((x :: xs).length : ℚ) := rfl

theorem npMean_nonneg {l : List ℚ} (h : ∀ x ∈ l, 0 ≤ x) : 0 ≤ npMean l := by
  cases l with
  | nil => simp [npMean]
  | cons x xs =>
    rw [npMean_cons]
    apply div_nonneg (List.sum_nonneg h)
    positivity

theorem npMean_le {l : List ℚ} {c : ℚ} (hc : 0 ≤ c) (h : ∀ x ∈ l, x ≤ c) :
    npMean l ≤ c := by
  cases l with
  | nil => simpa [npMean] using hc
  | cons x xs =>
    rw [npMean_cons, div_le_iff₀ (by exact_mod_cast Nat.succ_pos xs.length)]
    calc (x :: xs).sum ≤ (x :: xs).length • c := List.sum_le_card_nsmul _ _ h
      _ = c * ((x :: xs).length : ℚ) := by rw [nsmul_eq_mul]; ring

theorem pyInt_ge {q : ℚ} {z : ℤ} (hz : 0 ≤ z) (h : (z : ℚ) ≤ q) : z ≤ pyInt q := by
  have hq : 0 ≤ q := le_trans (by exact_mod_cast hz) h
  rw [pyInt_eq_floor hq]
  exact Int.le_floor.mpr h

theorem pyInt_lt {q : ℚ} {z : ℤ} (hq : 0 ≤ q) (h : q < (z : ℚ)) : pyInt q < z := by
  rw [pyInt_eq_floor hq]
  exact Int.floor_lt.mpr h

/-- With the default thresholds, every branch of the confidence ladder
stays in `[0, 100]` for a combined score in `[0, 1]` (the unclamped middle
branches cannot escape the range because the combined score cannot). -/
theorem classifyConfidence_range {c : ℚ} (_h0 : 0 ≤ c) (_h1 : c ≤ 1) :
    0 ≤ (classifyConfidence defaultConfidenceThresholds c).2 ∧
    (classifyConfidence defaultConfidenceThresholds c).2 ≤ 100 := by
  simp only [classifyConfidence, defaultConfidenceThresholds]
  split_ifs with hA hB hC hD
  · refine ⟨le_min (by norm_num) (pyInt_ge (by norm_num) (by nlinarith)), ?_⟩
    exact le_trans (min_le_left _ _) (by norm_num)
  · refine ⟨pyInt_ge (by norm_num) (by nlinarith), ?_⟩
    have : pyInt (55 + (c - 0.55) * 75) < 101 :=
      pyInt_lt (by nlinarith) (by push_neg at hA; nlinarith)
    omega
  · exact ⟨by norm_num, by norm_num⟩
  · push_neg at hC
    refine ⟨pyInt_ge (by norm_num) (by nlinarith), ?_⟩
    have : pyInt (55 + (0.45 - c) * 75) < 101 :=
      pyInt_lt (by nlinarith) (by nlinarith)
    omega
  · push_neg at hD
    refine ⟨le_min (by norm_num) (pyInt_ge (by norm_num) (by nlinarith)), ?_⟩
    exact le_trans (min_le_left _ _) (by norm_num)

/-! ## Claim C2 -/

/-- C2: for frame reports whose `total_score` values lie in `[0, 1]` and a
temporal score in `[0, 1]`, under the default rule configuration the
confidence returned by `synthesize_verdict` is an integer in `[0, 100]`. -/
theorem claim_C2_confidence_range (frameAnalyses : List FrameAnalysis)
    (temporalAnalysis : TemporalReport)
    (hs : ∀ fa ∈ frameAnalyses, 0 ≤ fa.artifactScore ∧ fa.artifactScore ≤ 1)
    (ht0 : 0 ≤ temporalAnalysis.temporalScore)
    (ht1 : temporalAnalysis.temporalScore ≤ 1) :
    0 ≤ (synthesizeVerdict defaultConfidenceThresholds frameAnalyses
        temporalAnalysis).confidence ∧
    (synthesizeVerdict defaultConfidenceThresholds frameAnalyses
        temporalAnalysis).confidence ≤ 100 := by
  have havg0 : 0 ≤ npMean (frameAnalyses.map (fun fa => fa.artifactScore)) := by
    apply npMean_nonneg
    intro x hx
    obtain ⟨fa, hfa, rfl⟩ := List.mem_map.mp hx
    exact (hs fa hfa).1
  have havg1 : npMean (frameAnalyses.map (fun fa => fa.artifactScore)) ≤ 1 := by
    apply npMean_le (by norm_num)
    intro x hx
    obtain ⟨fa, hfa, rfl⟩ := List.mem_map.mp hx
    exact (hs fa hfa).2
  have hc0 : 0 ≤ npMean (frameAnalyses.map (fun fa => fa.artifactScore)) * 0.6 +
      temporalAnalysis.temporalScore * 0.4 := by nlinarith
  have hc1 : npMean (frameAnalyses.map (fun fa => fa.artifactScore)) * 0.6 +
      temporalAnalysis.temporalScore * 0.4 ≤ 1 := by nlinarith
  exact classifyConfidence_range hc0 hc1

/-- Witness for `claim_C2_confidence_range` at a concrete input. -/
theorem claim_C2_confidence_range_witness :
    0 ≤ (synthesizeVerdict defaultConfidenceThresholds
        [⟨0, [], 0.9⟩, ⟨5, [], 0.8⟩] ⟨2, [], "", 0.7⟩).confidence ∧
    (synthesizeVerdict defaultConfidenceThresholds
        [⟨0, [], 0.9⟩, ⟨5, [], 0.8⟩] ⟨2, [], "", 0.7⟩).confidence ≤ 100 :=
  claim_C2_confidence_range [⟨0, [], 0.9⟩, ⟨5, [], 0.8⟩] ⟨2, [], "", 0.7⟩
    (by intro fa hfa
        simp only [List.mem_cons, List.not_mem_nil, or_false] at hfa
        rcases hfa with rfl | rfl <;> norm_num)
    (by norm_num) (by norm_num)


/-! ## Claims C3 and C5 -/

/-- C3: the round-trip scenario.  For frame reports with total scores
`0.9` (index 0) and `0.8` (index 5) and temporal score `0.7`,
`synthesize_verdict` computes `combined = ((0.9+0.8)/2)*0.6 + 0.7*0.4 =
0.79`, classifies FAKE, and returns confidence
`min(95, 70 + (0.79 - 0.75)*100) = 74`. -/
theorem claim_C3_round_trip :
    (synthesizeVerdict defaultConfidenceThresholds
        [⟨0, [], 0.9⟩, ⟨5, [], 0.8⟩] ⟨2, [], "", 0.7⟩).combined = 0.79 ∧
    (synthesizeVerdict defaultConfidenceThresholds
        [⟨0, [], 0.9⟩, ⟨5, [], 0.8⟩] ⟨2, [], "", 0.7⟩).classification = "FAKE" ∧
    (synthesizeVerdict defaultConfidenceThresholds
        [⟨0, [], 0.9⟩, ⟨5, [], 0.8⟩] ⟨2, [], "", 0.7⟩).confidence = 74 := by
  refine ⟨?_, ?_, ?_⟩ <;>
    norm_num [synthesizeVerdict, npMean_cons, classifyConfidence,
      defaultConfidenceThresholds, pyInt]

/-- C5: the empty-input scenario.  With no frame reports and temporal score
`0`, the empty mean is `0` by the `if artifact_scores else 0.0` convention,
so `combined = 0`, the classification is REAL and the confidence is
`min(95, 70 + (0.45 - 0)*100) = 95`. -/
theorem claim_C5_empty_input :
    (synthesizeVerdict defaultConfidenceThresholds [] ⟨0, [], "", 0⟩).visualAvg = 0 ∧
    (synthesizeVerdict defaultConfidenceThresholds [] ⟨0, [], "", 0⟩).combined = 0 ∧
    (synthesizeVerdict defaultConfidenceThresholds [] ⟨0, [], "", 0⟩).classification
      = "REAL" ∧
    (synthesizeVerdict defaultConfidenceThresholds [] ⟨0, [], "", 0⟩).confidence = 95 := by
  refine ⟨?_, ?_, ?_, ?_⟩ <;>
    norm_num [synthesizeVerdict, npMean, classifyConfidence,
      defaultConfidenceThresholds, pyInt]


/-! ## Temporal-analyzer lemmas -/

theorem pairFinding_length_le {frameIndices : List ℕ} {i : ℕ} {m : ℚ}
    {fs : List String} (h : pairFinding frameIndices i m = some fs) :
    fs.length ≤ 1 := by
  rcases h1 : frameIndices[i]? with _ | a <;>
    rcases h2 : frameIndices[i + 1]? with _ | b <;>
    simp only [pairFinding, h1, h2] at h <;> split_ifs at h <;>
    (try cases h) <;> simp_all

theorem pairFinding_isSome_of_lt {frameIndices : List ℕ} {i : ℕ} (m : ℚ)
    (h : i + 1 < frameIndices.length) :
    ∃ fs, pairFinding frameIndices i m = some fs := by
  have hi : i < frameIndices.length := by omega
  simp only [pairFinding, List.getElem?_eq_getElem hi, List.getElem?_eq_getElem h]
  split_ifs <;> exact ⟨_, rfl⟩

theorem pairFinding_no_trigger (frameIndices : List ℕ) (i : ℕ) {m : ℚ}
    (h1 : ¬ 50 < m) (h2 : ¬ m < 5) : pairFinding frameIndices i m = some [] := by
  simp [pairFinding, h1, h2]

theorem tempLoop_some {F : Type} (motion : F → F → ℚ) (frameIndices : List ℕ) :
    ∀ (pairs : List (F × F)) (i : ℕ),
      (∀ j < pairs.length, i + j + 1 < frameIndices.length) →
      ∃ fs, tempLoop motion frameIndices i pairs = some fs ∧
        fs.length ≤ pairs.length := by
  intro pairs
  induction pairs with
  | nil => exact fun i _ => ⟨[], rfl, le_refl _⟩
  | cons p rest ih =>
    intro i h
    have h0 : i + 1 < frameIndices.length := by
      have := h 0 (Nat.succ_pos _)
      omega
    obtain ⟨here, hhere⟩ := pairFinding_isSome_of_lt (motion p.1 p.2) h0
    obtain ⟨tail, htail, hlen⟩ := ih (i + 1)
      (fun j hj => by
        have := h (j + 1) (by simpa using Nat.succ_lt_succ hj)
        omega)
    refine ⟨here ++ tail, ?_, ?_⟩
    · simp [tempLoop, hhere, htail]
    · have hh := pairFinding_length_le hhere
      simp only [List.length_append, List.length_cons]
      omega

theorem tempLoop_no_trigger {F : Type} (motion : F → F → ℚ) (frameIndices : List ℕ) :
    ∀ (pairs : List (F × F)) (i : ℕ),
      (∀ p ∈ pairs, ¬ 50 < motion p.1 p.2 ∧ ¬ motion p.1 p.2 < 5) →
      tempLoop motion frameIndices i pairs = some [] := by
  intro pairs
  induction pairs with
  | nil => exact fun i _ => rfl
  | cons p rest ih =>
    intro i h
    have hp := h p (List.mem_cons_self _ _)
    simp [tempLoop, pairFinding_no_trigger frameIndices i hp.1 hp.2,
      ih (i + 1) (fun q hq => h q (List.mem_cons_of_mem _ hq))]

theorem consecutivePairs_length {F : Type} (l : List F) :
    (consecutivePairs l).length = l.length - 1 := by
  simp only [consecutivePairs, List.length_zip, List.length_tail]
  omega

theorem consecutivePairs_short {F : Type} {l : List F} (h : l.length < 2) :
    consecutivePairs l = [] := by
  cases l with
  | nil => rfl
  | cons x xs =>
    cases xs with
    | nil => rfl
    | cons y ys => simp at h; omega

/-! ## Claim C4 -/

/-- C4: with parallel index lists (equal lengths), `analyze_temporal_sequence`
returns a report whose `temporal_score` equals
`len(findings) / max(len(frames) - 1, 1)` and lies in `[0, 1]`; for fewer
than two frames it returns zero findings and score `0`.  The theorem holds
for every motion statistic, since each consecutive pair contributes at most
one finding. -/
theorem claim_C4_temporal_score {F : Type} (motion : F → F → ℚ)
    (frames : List F) (frameIndices : List ℕ)
    (hlen : frames.length = frameIndices.length) :
    ∃ r, analyzeTemporalSequence motion frames frameIndices = some r ∧
      r.temporalScore =
        (r.temporalFindings.length : ℚ) / (max (frames.length - 1) 1 : ℕ) ∧
      0 ≤ r.temporalScore ∧ r.temporalScore ≤ 1 ∧
      (frames.length < 2 → r.temporalFindings = [] ∧ r.temporalScore = 0) := by
  obtain ⟨fs, hfs, hle⟩ := tempLoop_some motion frameIndices (consecutivePairs frames) 0
    (by intro j hj
        rw [consecutivePairs_length] at hj
        omega)
  have hmax : (0 : ℚ) < ((max (frames.length - 1) 1 : ℕ) : ℚ) := by
    exact_mod_cast lt_of_lt_of_le Nat.zero_lt_one (le_max_right _ _)
  refine ⟨{ numFrames := frames.length, temporalFindings := fs,
            analysis := temporalAnalysisText frames.length fs,
            temporalScore := (fs.length : ℚ) / ((max (frames.length - 1) 1 : ℕ) : ℚ) },
          ?_, rfl, ?_, ?_, ?_⟩
  · unfold analyzeTemporalSequence
    rw [hfs]
    rfl
  · exact div_nonneg (by positivity) (le_of_lt hmax)
  · rw [div_le_one hmax]
    have : fs.length ≤ max (frames.length - 1) 1 := by
      rw [consecutivePairs_length] at hle
      exact le_trans hle (le_max_left _ _)
    exact_mod_cast this
  · intro h2
    have hnil : consecutivePairs frames = [] := consecutivePairs_short h2
    rw [hnil] at hfs
    have : fs = [] := by
      have : some ([] : List String) = some fs := hfs ▸ rfl
      simpa using this.symm
    subst this
    simp

/-- Witness for `claim_C4_temporal_score` at a concrete input. -/
theorem claim_C4_temporal_score_witness :
    ∃ r, analyzeTemporalSequence (fun _ _ : Unit => (10 : ℚ)) [(), ()] [0, 5] = some r ∧
      r.temporalScore =
        (r.temporalFindings.length : ℚ) /
          (max (([(), ()] : List Unit).length - 1) 1 : ℕ) ∧
      0 ≤ r.temporalScore ∧ r.temporalScore ≤ 1 ∧
      (([(), ()] : List Unit).length < 2 → r.temporalFindings = [] ∧ r.temporalScore = 0) :=
  claim_C4_temporal_score (fun _ _ => 10) [(), ()] [0, 5] rfl

/-! ## Claim C6 -/

/-- C6, counterexample.  The claim — mismatched `frames`/`frame_indices`
lengths make `analyze_temporal_sequence` fail fast with a descriptive error
— is false: with two frames, an empty index list, and a motion difference
of 25 (which triggers no finding), the function silently returns a report. -/
theorem claim_C6_counterexample :
    ([(), ()] : List Unit).length ≠ ([] : List ℕ).length ∧
    (analyzeTemporalSequence (fun _ _ : Unit => (25 : ℚ)) [(), ()]
      ([] : List ℕ)).isSome = true := by
  constructor
  · decide
  · norm_num [analyzeTemporalSequence, consecutivePairs, tempLoop, pairFinding]

/-- C6, amended: `analyze_temporal_sequence` performs no validation of the
two list lengths.  With mismatched lengths it silently produces a report
whenever no consecutive pair triggers a finding; a raised error occurs only
accidentally (an `IndexError`, modelled as `none`) when a triggered finding
reads an index beyond `frame_indices`, as with motion difference 100 below. -/
theorem claim_C6_no_validation :
    (∀ (F : Type) (motion : F → F → ℚ) (frames : List F) (frameIndices : List ℕ),
      (∀ p ∈ consecutivePairs frames,
        ¬ 50 < motion p.1 p.2 ∧ ¬ motion p.1 p.2 < 5) →
      ∃ r, analyzeTemporalSequence motion frames frameIndices = some r ∧
        r.temporalFindings = []) ∧
    analyzeTemporalSequence (fun _ _ : Unit => (100 : ℚ)) [(), ()]
      ([] : List ℕ) = none := by
  constructor
  · intro F motion frames frameIndices h
    refine ⟨{ numFrames := frames.length, temporalFindings := [],
              analysis := temporalAnalysisText frames.length [],
              temporalScore := ((0 : ℕ) : ℚ) / ((max (frames.length - 1) 1 : ℕ) : ℚ) },
            ?_, rfl⟩
    unfold analyzeTemporalSequence
    rw [tempLoop_no_trigger motion frameIndices (consecutivePairs frames) 0 h]
    rfl
  · norm_num [analyzeTemporalSequence, consecutivePairs, tempLoop, pairFinding]

/-- Witness for `claim_C6_no_validation` at a concrete input. -/
theorem claim_C6_no_validation_witness :
    ∃ r, analyzeTemporalSequence (fun _ _ : Unit => (25 : ℚ)) [(), ()]
        ([] : List ℕ) = some r ∧ r.temporalFindings = [] :=
  claim_C6_no_validation.1 Unit (fun _ _ => 25) [(), ()] []
    (fun p _ => ⟨by norm_num, by norm_num⟩)


/-! ## Claim C7 -/

/-- C7, counterexample.  The claim — the evidence bundle is the
deduplicated union of frame and temporal findings — is false: two frame
reports sharing the same finding make the `all_findings` aggregation (the
evidence that `synthesize_verdict` compiles and hands to the reasoning
generator) keep the duplicate. -/
theorem claim_C7_counterexample :
    allFindings
        [⟨0, ["Low edge density (possible boundary blending)"], 0⟩,
         ⟨1, ["Low edge density (possible boundary blending)"], 0⟩]
        ⟨2, [], "", 0⟩ =
      ["Low edge density (possible boundary blending)",
       "Low edge density (possible boundary blending)"] ∧
    ¬ (allFindings
        [⟨0, ["Low edge density (possible boundary blending)"], 0⟩,
         ⟨1, ["Low edge density (possible boundary blending)"], 0⟩]
        ⟨2, [], "", 0⟩).Nodup := by
  constructor
  · rfl
  · decide

/-- C7, amended: `synthesize_verdict` aggregates `all_findings` as the
concatenation of all frame findings followed by the temporal findings,
preserving duplicates (it is the union only as a set, first conjunct);
deduplication happens only for the at-most-five unique findings surfaced
in the reasoning narrative, whose order is unspecified. -/
theorem claim_C7_evidence_aggregation (frameAnalyses : List FrameAnalysis)
    (temporalAnalysis : TemporalReport) :
    (∀ f, f ∈ allFindings frameAnalyses temporalAnalysis ↔
      ((∃ fa ∈ frameAnalyses, f ∈ fa.findings) ∨
        f ∈ temporalAnalysis.temporalFindings)) ∧
    (keyEvidence (allFindings frameAnalyses temporalAnalysis)).Nodup ∧
    (keyEvidence (allFindings frameAnalyses temporalAnalysis)).length ≤ 5 ∧
    ∀ f ∈ keyEvidence (allFindings frameAnalyses temporalAnalysis),
      f ∈ allFindings frameAnalyses temporalAnalysis := by
  refine ⟨?_, ?_, ?_, ?_⟩
  · intro f
    simp [allFindings, List.mem_flatMap]
  · exact (List.take_sublist _ _).nodup (List.nodup_dedup _)
  · exact List.length_take_le _ _
  · intro f hf
    exact List.mem_dedup.mp (List.mem_of_mem_take hf)

/-- Witness for `claim_C7_evidence_aggregation` at a concrete input. -/
theorem claim_C7_evidence_aggregation_witness :
    ("A" ∈ allFindings [⟨0, ["A"], 0⟩] ⟨1, ["B"], "", 0⟩ ↔
      ((∃ fa ∈ [(⟨0, ["A"], 0⟩ : FrameAnalysis)], "A" ∈ fa.findings) ∨
        "A" ∈ ["B"])) ∧
    (keyEvidence (allFindings [⟨0, ["A"], 0⟩] ⟨1, ["B"], "", 0⟩)).Nodup :=
  ⟨(claim_C7_evidence_aggregation [⟨0, ["A"], 0⟩] ⟨1, ["B"], "", 0⟩).1 "A",
   (claim_C7_evidence_aggregation [⟨0, ["A"], 0⟩] ⟨1, ["B"], "", 0⟩).2.1⟩

/-! ## Claim C8 -/

/-- C8: under the default rules every detector report has
`total_score ≤ 0.7*0.25 + 0.6*0.20 + 0.5*0.20 = 0.395`, so for frame
reports produced by the detector and any temporal score `≤ 1`, the combined
score stays below `0.75` and the FAKE branch of `synthesize_verdict` is
unreachable. -/
theorem claim_C8_fake_unreachable :
    (∀ lv gs ed : ℚ,
      (detectVisualArtifacts defaultVisualWeights lv gs ed).totalScore ≤ 0.395) ∧
    ∀ (frameAnalyses : List FrameAnalysis) (temporalAnalysis : TemporalReport),
      (∀ fa ∈ frameAnalyses, ∃ lv gs ed : ℚ,
        fa.artifactScore =
          (detectVisualArtifacts defaultVisualWeights lv gs ed).totalScore) →
      temporalAnalysis.temporalScore ≤ 1 →
      (synthesizeVerdict defaultConfidenceThresholds frameAnalyses
        temporalAnalysis).classification ≠ "FAKE" := by
  have hbound : ∀ lv gs ed : ℚ,
      (detectVisualArtifacts defaultVisualWeights lv gs ed).totalScore ≤ 0.395 := by
    intro lv gs ed
    simp only [detectVisualArtifacts, defaultVisualWeights, smoothingScore,
      lightingScore, boundaryScore]
    split_ifs <;> norm_num
  refine ⟨hbound, ?_⟩
  intro fas T hfa ht
  have havg : npMean (fas.map (fun fa => fa.artifactScore)) ≤ 0.395 := by
    apply npMean_le (by norm_num)
    intro x hx
    obtain ⟨fa, hmem, rfl⟩ := List.mem_map.mp hx
    obtain ⟨lv, gs, ed, heq⟩ := hfa fa hmem
    rw [heq]
    exact hbound lv gs ed
  have hcomb : npMean (fas.map (fun fa => fa.artifactScore)) * 0.6 +
      T.temporalScore * 0.4 < 0.75 := by nlinarith
  show (classifyConfidence defaultConfidenceThresholds
    (npMean (fas.map (fun fa => fa.artifactScore)) * 0.6 +
      T.temporalScore * 0.4)).1 ≠ "FAKE"
  simp only [classifyConfidence, defaultConfidenceThresholds]
  split_ifs with h1 h2 h3 h4
  · exact absurd h1 (not_le.mpr hcomb)
  all_goals simp

/-- Witness for `claim_C8_fake_unreachable` at a concrete input. -/
theorem claim_C8_fake_unreachable_witness :
    (synthesizeVerdict defaultConfidenceThresholds [⟨0, [], 0.395⟩]
      ⟨0, [], "", 1⟩).classification ≠ "FAKE" :=
  claim_C8_fake_unreachable.2 [⟨0, [], 0.395⟩] ⟨0, [], "", 1⟩
    (by intro fa hfa
        simp only [List.mem_singleton] at hfa
        subst hfa
        exact ⟨0, 0, 0, by norm_num [detectVisualArtifacts, defaultVisualWeights,
          smoothingScore, lightingScore, boundaryScore]⟩)
    (by norm_num)

/-! ## Claim C9 -/

/-- With the default thresholds every branch of the confidence ladder
produces a value of at least 50. -/
theorem classifyConfidence_floor {c : ℚ} (_h0 : 0 ≤ c) :
    50 ≤ (classifyConfidence defaultConfidenceThresholds c).2 := by
  simp only [classifyConfidence, defaultConfidenceThresholds]
  split_ifs with hA hB hC hD
  · exact le_min (by norm_num) (pyInt_ge (by norm_num) (by nlinarith))
  · exact pyInt_ge (by norm_num) (by nlinarith)
  · norm_num
  · push_neg at hC
    exact pyInt_ge (by norm_num) (by nlinarith)
  · push_neg at hD
    exact le_min (by norm_num) (pyInt_ge (by norm_num) (by nlinarith))

/-- C9: under the default thresholds, for every input with nonnegative
combined score, the confidence returned by `synthesize_verdict` is at
least 50: every classification branch evaluates to `≥ 50`. -/
theorem claim_C9_confidence_floor (frameAnalyses : List FrameAnalysis)
    (temporalAnalysis : TemporalReport)
    (h : 0 ≤ (synthesizeVerdict defaultConfidenceThresholds frameAnalyses
      temporalAnalysis).combined) :
    50 ≤ (synthesizeVerdict defaultConfidenceThresholds frameAnalyses
      temporalAnalysis).confidence :=
  classifyConfidence_floor h

/-- Witness for `claim_C9_confidence_floor` at a concrete input. -/
theorem claim_C9_confidence_floor_witness :
    50 ≤ (synthesizeVerdict defaultConfidenceThresholds [] ⟨0, [], "", 0⟩).confidence :=
  claim_C9_confidence_floor [] ⟨0, [], "", 0⟩
    (by norm_num [synthesizeVerdict, npMean])

/-! ## Claim C10 -/

theorem le_foldl_max (l : List ℚ) : ∀ a : ℚ, a ≤ l.foldl max a := by
  induction l with
  | nil => intro a; simp
  | cons x xs ih =>
    intro a
    rw [List.foldl_cons]
    calc a ≤ max a x := le_max_left _ _
      _ ≤ xs.foldl max (max a x) := ih _

theorem mem_le_foldl_max {l : List ℚ} {y : ℚ} (hy : y ∈ l) :
    ∀ a : ℚ, y ≤ l.foldl max a := by
  induction l with
  | nil => cases hy
  | cons x xs ih =>
    intro a
    rw [List.foldl_cons]
    rcases List.mem_cons.mp hy with rfl | hmem
    · calc y ≤ max a y := le_max_right _ _
        _ ≤ xs.foldl max (max a y) := le_foldl_max _ _
    · exact ih hmem _

theorem npMean_le_npMax (l : List ℚ) : npMean l ≤ npMax l := by
  cases l with
  | nil => simp [npMean, npMax]
  | cons x xs =>
    rw [npMean_cons, div_le_iff₀ (by exact_mod_cast Nat.succ_pos xs.length)]
    have hmem : ∀ y ∈ x :: xs, y ≤ npMax (x :: xs) := by
      intro y hy
      rcases List.mem_cons.mp hy with rfl | hmem
      · exact le_foldl_max xs y
      · exact mem_le_foldl_max hmem x
    calc (x :: xs).sum ≤ (x :: xs).length • npMax (x :: xs) :=
          List.sum_le_card_nsmul _ _ hmem
      _ = npMax (x :: xs) * ((x :: xs).length : ℚ) := by rw [nsmul_eq_mul]; ring

/-- C10, counterexample.  The claim — the scores record satisfies
`visual_max ≥ visual_avg ≥ 0` for every input — is false in its second
inequality: a frame report with `artifact_score = -1` (nothing in
`synthesize_verdict` restricts the scores it is handed) yields
`visual_avg = -1 < 0`. -/
theorem claim_C10_counterexample :
    (synthesizeVerdict defaultConfidenceThresholds [⟨0, [], -1⟩]
      ⟨0, [], "", 0⟩).visualAvg < 0 := by
  norm_num [synthesizeVerdict, npMean_cons]

/-- C10, amended: `visual_max ≥ visual_avg` holds for every input, both
are `0` when `frame_analyses` is empty, and `visual_avg ≥ 0` holds
whenever all supplied artifact scores are nonnegative (as those produced
by the detector are). -/
theorem claim_C10_scores_relation (frameAnalyses : List FrameAnalysis)
    (temporalAnalysis : TemporalReport) :
    (synthesizeVerdict defaultConfidenceThresholds frameAnalyses
        temporalAnalysis).visualAvg ≤
      (synthesizeVerdict defaultConfidenceThresholds frameAnalyses
        temporalAnalysis).visualMax ∧
    (frameAnalyses = [] →
      (synthesizeVerdict defaultConfidenceThresholds frameAnalyses
          temporalAnalysis).visualAvg = 0 ∧
      (synthesizeVerdict defaultConfidenceThresholds frameAnalyses
          temporalAnalysis).visualMax = 0) ∧
    ((∀ fa ∈ frameAnalyses, 0 ≤ fa.artifactScore) →
      0 ≤ (synthesizeVerdict defaultConfidenceThresholds frameAnalyses
        temporalAnalysis).visualAvg) := by
  refine ⟨npMean_le_npMax _, ?_, ?_⟩
  · rintro rfl
    exact ⟨rfl, rfl⟩
  · intro h
    apply npMean_nonneg
    intro x hx
    obtain ⟨fa, hmem, rfl⟩ := List.mem_map.mp hx
    exact h fa hmem

/-- Witness for `claim_C10_scores_relation` at a concrete input. -/
theorem claim_C10_scores_relation_witness :
    (synthesizeVerdict defaultConfidenceThresholds [⟨0, [], 1⟩]
        ⟨0, [], "", 0⟩).visualAvg ≤
      (synthesizeVerdict defaultConfidenceThresholds [⟨0, [], 1⟩]
        ⟨0, [], "", 0⟩).visualMax ∧
    0 ≤ (synthesizeVerdict defaultConfidenceThresholds [⟨0, [], 1⟩]
        ⟨0, [], "", 0⟩).visualAvg :=
  ⟨(claim_C10_scores_relation [⟨0, [], 1⟩] ⟨0, [], "", 0⟩).1,
   (claim_C10_scores_relation [⟨0, [], 1⟩] ⟨0, [], "", 0⟩).2.2
     (by intro fa hfa
         simp only [List.mem_singleton] at hfa
         subst hfa
         norm_num)⟩

end Deepfake
